import Mathlib

/-!
Shallow embedding of the deployer2 pipeline (`main.go`).

The repository's `main.go` drives a sequential deployment pipeline:
resolve image/env (with a `JOB_NAME` fallback), compute image tags,
load a manifest, generate build/package files, run the build and the
docker build, and then, per workload: load a cluster preset, derive
registry-qualified tags, tag and push each of them, and (unless
`--skip-deploy`) write a kubeconfig, build a patch document and invoke
the kubectl patch executor.  A deferred cleanup removes every image tag
recorded in the `usedImageNames` accumulator, and the process exits 1
iff any stage returned an error.

External collaborators (build tool, docker, kubectl, temp files) are
modelled as oracle fields of `ExecEnv`; each invocation of an external
executor is recorded as an `Event` in the run trace.
-/

/-- CPU/MEM override pair, from the `LimitOption` flag type
(`MIN:MAX`, both integers). -/
structure LimitOption where
  min : Int
  max : Int
deriving DecidableEq

/-- Modelled from the spec: the `IsZero()` predicate of `LimitOption`
(the type lives in a source file not present here) — true iff both
fields are 0; the zero value is the "no override supplied" sentinel. -/
def LimitOption.IsZero (l : LimitOption) : Bool :=
  l.min == 0 && l.max == 0

/-- A parsed workload address: CLUSTER/NAMESPACE/TYPE/NAME[/CONTAINER],
plus the per-workload init-container marker.  (`namespace_` stands for
the Go field `Namespace`; `namespace` is a Lean keyword.) -/
structure Workload where
  cluster : String
  namespace_ : String
  type : String
  name : String
  container : String
  isInit : Bool
deriving DecidableEq

/-- Per-cluster preset configuration.  The generator methods
`GenerateDockerconfig` / `GenerateKubeconfig` are pure functions of the
preset's fields, so they are modelled by the strings they produce. -/
structure Preset where
  registry : String
  requestsCPU : String
  requestsMEM : String
  limitsCPU : String
  limitsMEM : String
  imagePullSecrets : List String
  dockerconfig : String
  kubeconfig : String
deriving DecidableEq

/-- Modelled from the spec: `ImageNames.Primary` (the `ImageNames` type
lives in a source file not present here) — the primary tag is the first
element of the list. -/
def ImageNames.Primary (ns : List String) : String :=
  ns.headD ""

/-- Modelled from the spec: `ImageNames.Derive(registry)` — every tag
has its leading image-name segment replaced by
`registry ++ "/" ++ originalName`, tag suffix unchanged, order (hence
the primary position) preserved. -/
def ImageNames.Derive (ns : List String) (registry : String) : List String :=
  ns.map (fun n => registry ++ "/" ++ n)

/-- Resource block of a patch container (`container.Resources`). -/
structure PatchResources where
  requestsCPU : String
  requestsMEM : String
  limitsCPU : String
  limitsMEM : String
deriving DecidableEq

/-- A `PatchContainer` entry: image, name, pull policy and resources. -/
structure PatchContainer where
  image : String
  name : String
  imagePullPolicy : String
  resources : PatchResources
deriving DecidableEq

/-- A `PatchInitContainer` entry: image, name, pull policy; no resources. -/
structure PatchInitContainer where
  image : String
  name : String
  imagePullPolicy : String
deriving DecidableEq

/-- The patch document built by `main.go` (flattened: the nested
`Spec.Template.Metadata.Annotations.Timestamp` path is `timestamp`,
`Spec.Template.Spec.*` are the remaining fields). -/
structure Patch where
  timestamp : String
  imagePullSecrets : List String
  containers : List PatchContainer
  initContainers : List PatchInitContainer
deriving DecidableEq

/-- Go `strings.TrimSpace` on the whitespace forms that occur here. -/
def isSpaceChar (c : Char) : Bool :=
  c = ' ' || c = '\t' || c = '\n' || c = '\r'

/-- Structural (kernel-evaluable) whitespace trim, mirroring
`strings.TrimSpace` as applied to pull-secret names. -/
def trimSpace (s : String) : String :=
  String.mk (((s.toList.dropWhile isSpaceChar).reverse.dropWhile isSpaceChar).reverse)

/-- Go `strings.Split(s, ".")` — auxiliary character recursion. -/
def splitDotAux : List Char → List Char → List (List Char)
  | [], acc => [acc.reverse]
  | c :: cs, acc =>
    if c = '.' then acc.reverse :: splitDotAux cs []
    else splitDotAux cs (c :: acc)

/-- Go `strings.Split(s, ".")` for the single-character separator used
in `main.go` (note `strings.Split("", ".")` is `[""]`). -/
def splitDot (s : String) : List String :=
  (splitDotAux s.toList []).map String.mk

/-- Lines 55-67 of `main.go`: when `--image` or `--env` is missing,
derive the missing value(s) from `JOB_NAME` split on `.` into exactly
two parts; fail (`none`) otherwise.  A supplied flag value is kept. -/
def resolveImageEnv (optImage optEnv jobName : String) : Option (String × String) :=
  if optImage == "" || optEnv == "" then
    match splitDot jobName with
    | [a, b] =>
      some ((if optImage == "" then a else optImage),
            (if optEnv == "" then b else optEnv))
    | _ => none
  else
    some (optImage, optEnv)

/-- Lines 69-73 of `main.go`: the image-name list; a build-numbered tag
comes first when `BUILD_NUMBER` is non-empty, then always the plain
`image:env` tag. -/
def computeImageNames (image envName buildNumber : String) : List String :=
  (if buildNumber == "" then []
   else [image ++ ":" ++ envName ++ "-build-" ++ buildNumber])
  ++ [image ++ ":" ++ envName]

/-- Lines 156-189 of `main.go`: build the patch document for one
workload from the preset, the CLI overrides and the primary derived
image tag. -/
def buildPatch (now : String) (s : Preset) (w : Workload)
    (optCPU optMEM : LimitOption) (primaryImage : String) : Patch :=
  let secrets := s.imagePullSecrets.map (fun n => trimSpace n)
  if w.isInit then
    { timestamp := now
      imagePullSecrets := secrets
      containers := []
      initContainers :=
        [{ image := primaryImage, name := w.container, imagePullPolicy := "Always" }] }
  else
    let res0 : PatchResources :=
      { requestsCPU := s.requestsCPU, requestsMEM := s.requestsMEM
        limitsCPU := s.limitsCPU, limitsMEM := s.limitsMEM }
    let res1 :=
      if optCPU.IsZero then res0
      else { res0 with
              requestsCPU := toString optCPU.min ++ "m"
              limitsCPU := toString optCPU.max ++ "m" }
    let res2 :=
      if optMEM.IsZero then res1
      else { res1 with
              requestsMEM := toString optMEM.min ++ "Mi"
              limitsMEM := toString optMEM.max ++ "Mi" }
    { timestamp := now
      imagePullSecrets := secrets
      containers :=
        [{ image := primaryImage, name := w.container, imagePullPolicy := "Always"
           resources := res2 }]
      initContainers := [] }

/-- JSON string literal helper. -/
def jsonStr (s : String) : String :=
  "\"" ++ s ++ "\""

/-- JSON rendering of one container entry. -/
def containerToJson (c : PatchContainer) : String :=
  "\x7b\"image\":" ++ jsonStr c.image ++ ",\"name\":" ++ jsonStr c.name
  ++ ",\"imagePullPolicy\":" ++ jsonStr c.imagePullPolicy
  ++ ",\"resources\":\x7b\"requests\":\x7b\"cpu\":" ++ jsonStr c.resources.requestsCPU
  ++ ",\"memory\":" ++ jsonStr c.resources.requestsMEM
  ++ "\x7d,\"limits\":\x7b\"cpu\":" ++ jsonStr c.resources.limitsCPU
  ++ ",\"memory\":" ++ jsonStr c.resources.limitsMEM ++ "\x7d\x7d\x7d"

/-- JSON rendering of one init-container entry. -/
def initContainerToJson (c : PatchInitContainer) : String :=
  "\x7b\"image\":" ++ jsonStr c.image ++ ",\"name\":" ++ jsonStr c.name
  ++ ",\"imagePullPolicy\":" ++ jsonStr c.imagePullPolicy ++ "\x7d"

/-- Modelled from the spec: `json.Marshal` of the patch document (the
struct tags live in a source file not present here); structurally the
document carries the timestamp annotation, the pull secrets, and the
container or init-container entry under the pod-template path. -/
def patchToJson (p : Patch) : String :=
  "\x7b\"spec\":\x7b\"template\":\x7b\"metadata\":\x7b\"annotations\":\x7b\"timestamp\":"
  ++ jsonStr p.timestamp
  ++ "\x7d\x7d,\"spec\":\x7b\"imagePullSecrets\":["
  ++ String.intercalate ","
      (p.imagePullSecrets.map (fun n => "\x7b\"name\":" ++ jsonStr n ++ "\x7d"))
  ++ "],\"containers\":["
  ++ String.intercalate "," (p.containers.map containerToJson)
  ++ "],\"initContainers\":["
  ++ String.intercalate "," (p.initContainers.map initContainerToJson)
  ++ "]\x7d\x7d\x7d\x7d"

/-- One invocation of an external collaborator, as recorded in the run
trace. -/
inductive Event where
  | loadManifest (path : String)
  | generateFiles (envName : String)
  | build (file : String)
  | dockerBuild (file : String) (tag : String)
  | loadPreset (cluster : String)
  | writeDockerconfig (cluster : String)
  | dockerTag (src : String) (dst : String)
  | dockerPush (tag : String)
  | writeKubeconfig (cluster : String)
  | kubectlPatch (kubeconfig : String) (ns : String) (resName : String)
      (resKind : String) (patchJson : String)
  | dockerRemoveImage (tag : String)
deriving DecidableEq

/-- The run configuration plus the oracles for every external
collaborator (flags, environment variables, executors, temp-file
writers).  Each executor returns success or an error message. -/
structure ExecEnv where
  jobName : String
  buildNumber : String
  optManifest : String
  optImage : String
  optEnv : String
  optSkipDeploy : Bool
  optWorkloads : List Workload
  optCPU : LimitOption
  optMEM : LimitOption
  now : String
  loadManifest : String → Except String Unit
  generateFiles : String → Except String (String × String)
  execBuild : String → Except String Unit
  execDockerBuild : String → String → Except String Unit
  loadPreset : String → Except String Preset
  writeDockerconfig : String → Except String (String × String)
  execDockerTag : String → String → Except String Unit
  execDockerPush : String → String → Except String Unit
  writeKubeconfig : String → Except String String
  execKubectlPatch : String → String → String → String → String → Except String Unit

/-- Lines 132-144 of `main.go`: the tag-then-push loop over the derived
image names.  Returns the emitted events, the updated `usedImageNames`
accumulator (a name is appended after a successful tag, before its push
is attempted) and the first error, if any. -/
def pushImages (env : ExecEnv) (primary dcDir : String) :
    List String → List String → List Event × List String × Option String
  | [], used => ([], used, none)
  | n :: ns, used =>
    match env.execDockerTag primary n with
    | .error msg => ([Event.dockerTag primary n], used, some msg)
    | .ok _ =>
      match env.execDockerPush n dcDir with
      | .error msg =>
          ([Event.dockerTag primary n, Event.dockerPush n], used ++ [n], some msg)
      | .ok _ =>
          let r := pushImages env primary dcDir ns (used ++ [n])
          (Event.dockerTag primary n :: Event.dockerPush n :: r.1, r.2.1, r.2.2)

/-- The error message of a fallible executor result, if any. -/
def errOf : Except String Unit → Option String
  | .error msg => some msg
  | .ok _ => none

/-- Lines 150-198 of `main.go`, the deploy (patch) step of one
workload: write the kubeconfig, build the patch document and invoke the
kubectl patch executor; the second component is the error of the patch
invocation, if any.  Note the faithful argument slip of line 196: the
resource-name argument of the patch executor receives `w.namespace_`,
not `w.name`. -/
def deployStep (env : ExecEnv) (cpu mem : LimitOption) (s : Preset) (w : Workload)
    (fullImageNames : List String) : List Event × Option String :=
  match env.writeKubeconfig s.kubeconfig with
  | .error msg => ([Event.writeKubeconfig w.cluster], some msg)
  | .ok fileKubeconfig =>
    let buf := patchToJson
      (buildPatch env.now s w cpu mem (ImageNames.Primary fullImageNames))
    ([Event.writeKubeconfig w.cluster,
      Event.kubectlPatch fileKubeconfig w.namespace_ w.namespace_ w.type buf],
     errOf (env.execKubectlPatch fileKubeconfig w.namespace_ w.namespace_ w.type buf))

/-- Lines 111-199 of `main.go`, body of the per-workload loop: load the
preset, derive registry-qualified names, write the dockerconfig, tag
and push every derived name, then (unless `--skip-deploy`) run the
deploy step. -/
def runWorkload (env : ExecEnv) (names : List String) (cpu mem : LimitOption)
    (sd : Bool) (w : Workload) (used : List String) :
    List Event × List String × Option String :=
  match env.loadPreset w.cluster with
  | .error msg => ([Event.loadPreset w.cluster], used, some msg)
  | .ok s =>
    match env.writeDockerconfig s.dockerconfig with
    | .error msg =>
        ([Event.loadPreset w.cluster, Event.writeDockerconfig w.cluster], used, some msg)
    | .ok (dcDir, _) =>
      let r := pushImages env (ImageNames.Primary names) dcDir
        (ImageNames.Derive names s.registry) used
      let evs0 := Event.loadPreset w.cluster :: Event.writeDockerconfig w.cluster :: r.1
      match r.2.2 with
      | some msg => (evs0, r.2.1, some msg)
      | none =>
        if sd then (evs0, r.2.1, none)
        else
          let d := deployStep env cpu mem s w (ImageNames.Derive names s.registry)
          (evs0 ++ d.1, r.2.1, d.2)

/-- The per-workload loop itself: strictly sequential, aborting the
whole remainder of the list on the first error. -/
def runWorkloads (env : ExecEnv) (names : List String) (cpu mem : LimitOption)
    (sd : Bool) : List Workload → List String → List Event × List String × Option String
  | [], used => ([], used, none)
  | w :: ws, used =>
    let r := runWorkload env names cpu mem sd w used
    match r.2.2 with
    | some msg => (r.1, r.2.1, some msg)
    | none =>
      let r2 := runWorkloads env names cpu mem sd ws r.2.1
      (r.1 ++ r2.1, r2.2.1, r2.2.2)

/-- Observable outcome of one run: the trace of external invocations
and the process exit code. -/
structure RunResult where
  trace : List Event
  exitCode : Nat
deriving DecidableEq

/-- The events of the pre-workload stages (manifest load, file
generation, build, docker build), in order. -/
def preEvents (env : ExecEnv) (envName fileBuild filePackage : String)
    (names : List String) : List Event :=
  [Event.loadManifest env.optManifest, Event.generateFiles envName,
   Event.build fileBuild, Event.dockerBuild filePackage (ImageNames.Primary names)]

/-- The whole of `main` (lines 24-200): resolve image/env, compute the
tags, run the pre-workload stages, loop over the workloads, and finally
(deferred cleanup, registered at line 103 once packaging succeeded)
remove every image recorded in `usedImageNames`.  Exit code 1 iff some
stage errored. -/
def deployerMain (env : ExecEnv) : RunResult :=
  match resolveImageEnv env.optImage env.optEnv env.jobName with
  | none => { trace := [], exitCode := 1 }
  | some (image, envName) =>
    let names := computeImageNames image envName env.buildNumber
    match env.loadManifest env.optManifest with
    | .error _ => { trace := [Event.loadManifest env.optManifest], exitCode := 1 }
    | .ok _ =>
      match env.generateFiles envName with
      | .error _ =>
          { trace := [Event.loadManifest env.optManifest, Event.generateFiles envName]
            exitCode := 1 }
      | .ok (fileBuild, filePackage) =>
        match env.execBuild fileBuild with
        | .error _ =>
            { trace := [Event.loadManifest env.optManifest, Event.generateFiles envName,
                Event.build fileBuild]
              exitCode := 1 }
        | .ok _ =>
          match env.execDockerBuild filePackage (ImageNames.Primary names) with
          | .error _ =>
              { trace := [Event.loadManifest env.optManifest, Event.generateFiles envName,
                  Event.build fileBuild,
                  Event.dockerBuild filePackage (ImageNames.Primary names)]
                exitCode := 1 }
          | .ok _ =>
            let r := runWorkloads env names env.optCPU env.optMEM env.optSkipDeploy
              env.optWorkloads [ImageNames.Primary names]
            { trace := preEvents env envName fileBuild filePackage names
                ++ r.1 ++ r.2.1.map Event.dockerRemoveImage
              exitCode := if r.2.2.isSome then 1 else 0 }

/-- Projection: the (namespace, resource-name, resource-kind) argument
triples of every kubectl patch invocation in a trace. -/
def patchArgs (evs : List Event) : List (String × String × String) :=
  evs.filterMap (fun e =>
    match e with
    | Event.kubectlPatch _ ns resName resKind _ => some (ns, resName, resKind)
    | _ => none)

/-- Recognizer for kubectl patch invocations. -/
def isPatchEvent : Event → Bool
  | Event.kubectlPatch _ _ _ _ _ => true
  | _ => false

/-- Recognizer for preset-load invocations. -/
def isLoadPresetEvent : Event → Bool
  | Event.loadPreset _ => true
  | _ => false

/-! ### Concrete environments used by counterexamples and witnesses -/

/-- A sample preset with the spec's example resource defaults. -/
def presetEx : Preset :=
  { registry := "reg1", requestsCPU := "100m", requestsMEM := "256Mi"
    limitsCPU := "200m", limitsMEM := "512Mi"
    imagePullSecrets := ["sec1"], dockerconfig := "DC1", kubeconfig := "KC1" }

/-- A sample non-init workload whose name differs from its namespace. -/
def wEx : Workload :=
  { cluster := "c1", namespace_ := "ns", type := "deployment", name := "myapp"
    container := "main", isInit := false }

/-- A fully succeeding environment with the single workload `wEx`. -/
def c1Env : ExecEnv :=
  { jobName := "", buildNumber := "", optManifest := "deployer.yml"
    optImage := "svc", optEnv := "prod", optSkipDeploy := false
    optWorkloads := [wEx], optCPU := ⟨0, 0⟩, optMEM := ⟨0, 0⟩, now := "T0"
    loadManifest := fun _ => .ok ()
    generateFiles := fun _ => .ok ("build.sh", "Dockerfile")
    execBuild := fun _ => .ok ()
    execDockerBuild := fun _ _ => .ok ()
    loadPreset := fun c => if c == "c1" then .ok presetEx else .error "unknown cluster"
    writeDockerconfig := fun _ => .ok ("dcdir", "dcdir/config.json")
    execDockerTag := fun _ _ => .ok ()
    execDockerPush := fun _ _ => .ok ()
    writeKubeconfig := fun _ => .ok "kubeconfig.yml"
    execKubectlPatch := fun _ _ _ _ _ => .ok () }

/-! ### Image/env resolution and tag computation (C1, C3, C5, C10) -/

/-- When image or env is missing and `JOB_NAME` does not split into
exactly two parts, resolution fails. -/
theorem resolveImageEnv_none (optImage optEnv jobName : String)
    (h1 : optImage = "" ∨ optEnv = "")
    (h2 : (splitDot jobName).length ≠ 2) :
    resolveImageEnv optImage optEnv jobName = none := by
  have hcond : (optImage == "" || optEnv == "") = true := by
    rcases h1 with h | h <;> simp [h]
  unfold resolveImageEnv
  simp only [hcond, if_true]
  rcases hs : splitDot jobName with _ | ⟨a, _ | ⟨b, _ | ⟨c, rest⟩⟩⟩
  · rfl
  · rfl
  · exact absurd (by rw [hs]; rfl) h2
  · rfl

/-- C1: in a fully succeeding run of the single workload `wEx`
(namespace `"ns"`, resource name `"myapp"`, kind `"deployment"`), the
kubectl patch executor is invoked with `"ns"` — the workload's
namespace — as the resource-name argument instead of the workload's
name `"myapp"` (line 196 of `main.go` passes `workload.Namespace`
twice; `workload.Name` is never used). -/
theorem c1_patch_resource_name_is_namespace :
    wEx.name = "myapp" ∧ wEx.namespace_ = "ns" ∧
    patchArgs (deployerMain c1Env).trace = [("ns", "ns", "deployment")] ∧
    ("ns" : String) ≠ "myapp" :=
  ⟨rfl, rfl, by decide, by decide⟩

/-- C3: the constructed image-name list is
`[I:E-build-B, I:E]` when `BUILD_NUMBER` is non-empty with value `B`
and `[I:E]` otherwise, and the primary tag is the first element (the
build-numbered tag when present, else the plain env tag). -/
theorem c3_image_name_list (image envName bn : String) :
    (bn ≠ "" →
      computeImageNames image envName bn =
        [image ++ ":" ++ envName ++ "-build-" ++ bn, image ++ ":" ++ envName] ∧
      ImageNames.Primary (computeImageNames image envName bn) =
        image ++ ":" ++ envName ++ "-build-" ++ bn) ∧
    (bn = "" →
      computeImageNames image envName bn = [image ++ ":" ++ envName] ∧
      ImageNames.Primary (computeImageNames image envName bn) =
        image ++ ":" ++ envName) := by
  constructor
  · intro h
    have hb : (bn == "") = false := by simp [h]
    simp [computeImageNames, ImageNames.Primary, hb]
  · intro h
    simp [computeImageNames, ImageNames.Primary, h]

/-- C3 witness: image `svc`, env `prod`, build number `42` versus no
build number. -/
theorem c3_image_name_list_witness :
    computeImageNames "svc" "prod" "42" = ["svc:prod-build-42", "svc:prod"] ∧
    ImageNames.Primary (computeImageNames "svc" "prod" "42") = "svc:prod-build-42" ∧
    computeImageNames "svc" "prod" "" = ["svc:prod"] ∧
    ImageNames.Primary (computeImageNames "svc" "prod" "") = "svc:prod" :=
  ⟨((c3_image_name_list "svc" "prod" "42").1 (by decide)).1.trans (by decide),
   ((c3_image_name_list "svc" "prod" "42").1 (by decide)).2.trans (by decide),
   ((c3_image_name_list "svc" "prod" "").2 rfl).1.trans (by decide),
   ((c3_image_name_list "svc" "prod" "").2 rfl).2.trans (by decide)⟩

/-- C5: when `--image` or `--env` is absent and `JOB_NAME` does not
split on `.` into exactly two parts, the program fails with the
missing-parameters error before any pipeline stage runs (the trace is
empty) and the process exits with code 1. -/
theorem c5_missing_params_fails_early (env : ExecEnv)
    (h1 : env.optImage = "" ∨ env.optEnv = "")
    (h2 : (splitDot env.jobName).length ≠ 2) :
    deployerMain env = { trace := [], exitCode := 1 } := by
  have hnone := resolveImageEnv_none env.optImage env.optEnv env.jobName h1 h2
  unfold deployerMain
  rw [hnone]

/-- C5 witness: a run with `--image` absent and `JOB_NAME = "nodots"`. -/
theorem c5_missing_params_fails_early_witness :
    deployerMain { c1Env with optImage := "", jobName := "nodots" } =
      { trace := [], exitCode := 1 } :=
  c5_missing_params_fails_early _ (Or.inl rfl) (by decide)

/-- C10: with exactly one of `--image`/`--env` supplied and `JOB_NAME`
splitting into exactly two parts, the supplied value is preserved and
only the missing one is filled from the corresponding `JOB_NAME` part;
when `JOB_NAME` does not split into two parts the resolution fails even
though only one value was missing. -/
theorem c10_partial_job_name_fallback (optImage optEnv jobName a b : String) :
    (splitDot jobName = [a, b] →
      (optImage ≠ "" → resolveImageEnv optImage "" jobName = some (optImage, b)) ∧
      (optEnv ≠ "" → resolveImageEnv "" optEnv jobName = some (a, optEnv))) ∧
    ((splitDot jobName).length ≠ 2 →
      resolveImageEnv optImage "" jobName = none ∧
      resolveImageEnv "" optEnv jobName = none) := by
  constructor
  · intro hs
    constructor
    · intro himg
      have hb : (optImage == "") = false := by simp [himg]
      simp [resolveImageEnv, hs, hb]
    · intro henv
      have hb : (optEnv == "") = false := by simp [henv]
      simp [resolveImageEnv, hs, hb]
  · intro hlen
    exact ⟨resolveImageEnv_none _ _ _ (Or.inr rfl) hlen,
           resolveImageEnv_none _ _ _ (Or.inl rfl) hlen⟩

/-- C10 witness: `JOB_NAME = "app.staging"` fills only the missing
value; `JOB_NAME = "nodots"` fails even with one value supplied. -/
theorem c10_partial_job_name_fallback_witness :
    resolveImageEnv "svc" "" "app.staging" = some ("svc", "staging") ∧
    resolveImageEnv "" "prod" "app.staging" = some ("app", "prod") ∧
    resolveImageEnv "svc" "" "nodots" = none :=
  ⟨((c10_partial_job_name_fallback "svc" "prod" "app.staging" "app" "staging").1
      (by decide)).1 (by decide),
   ((c10_partial_job_name_fallback "svc" "prod" "app.staging" "app" "staging").1
      (by decide)).2 (by decide),
   ((c10_partial_job_name_fallback "svc" "prod" "nodots" "x" "y").2 (by decide)).1⟩

/-! ### Patch builder (C2, C4) -/

/-- The init-container variant of `wEx`. -/
def wInitEx : Workload :=
  { wEx with isInit := true }

/-- For a non-init workload the container entry of the built patch,
with the per-dimension override precedence spelled out. -/
theorem buildPatch_containers_noninit (now : String) (s : Preset) (w : Workload)
    (optCPU optMEM : LimitOption) (img : String) (h : w.isInit = false) :
    (buildPatch now s w optCPU optMEM img).containers =
      [{ image := img, name := w.container, imagePullPolicy := "Always"
         resources :=
           { requestsCPU :=
               if optCPU.IsZero then s.requestsCPU else toString optCPU.min ++ "m"
             requestsMEM :=
               if optMEM.IsZero then s.requestsMEM else toString optMEM.min ++ "Mi"
             limitsCPU :=
               if optCPU.IsZero then s.limitsCPU else toString optCPU.max ++ "m"
             limitsMEM :=
               if optMEM.IsZero then s.limitsMEM else toString optMEM.max ++ "Mi" } }] := by
  unfold buildPatch
  rw [h]
  cases hc : optCPU.IsZero <;> cases hm : optMEM.IsZero <;> simp [hc, hm]

/-- C2: for a non-init container patch, override precedence is
per-dimension: a non-zero CPU (resp. MEM) override sets the request to
`<min>m` (resp. `<min>Mi`) and the limit to `<max>m` (resp. `<max>Mi`),
while a zero/absent override passes the preset's values for that
dimension through unchanged. -/
theorem c2_resource_override_precedence (now : String) (s : Preset) (w : Workload)
    (optCPU optMEM : LimitOption) (img : String) (h : w.isInit = false) :
    (buildPatch now s w optCPU optMEM img).containers =
      [{ image := img, name := w.container, imagePullPolicy := "Always"
         resources :=
           { requestsCPU :=
               if optCPU.IsZero then s.requestsCPU else toString optCPU.min ++ "m"
             requestsMEM :=
               if optMEM.IsZero then s.requestsMEM else toString optMEM.min ++ "Mi"
             limitsCPU :=
               if optCPU.IsZero then s.limitsCPU else toString optCPU.max ++ "m"
             limitsMEM :=
               if optMEM.IsZero then s.limitsMEM else toString optMEM.max ++ "Mi" } }] :=
  buildPatch_containers_noninit now s w optCPU optMEM img h

/-- C2 witness: preset `{req:100m/256Mi, lim:200m/512Mi}` with CPU
override `50:150` and no MEM override yields CPU `50m`/`150m` and the
preset's memory values unchanged. -/
theorem c2_resource_override_precedence_witness :
    wEx.isInit = false ∧
    (buildPatch "T0" presetEx wEx ⟨50, 150⟩ ⟨0, 0⟩ "img").containers =
      [{ image := "img", name := "main", imagePullPolicy := "Always"
         resources := { requestsCPU := "50m", requestsMEM := "256Mi"
                        limitsCPU := "150m", limitsMEM := "512Mi" } }] :=
  ⟨rfl,
   (c2_resource_override_precedence "T0" presetEx wEx ⟨50, 150⟩ ⟨0, 0⟩ "img" rfl).trans
     (by decide)⟩

/-- C4: exactly one of a container / init-container entry is emitted:
for `isInit = true` an init-container entry with the primary derived
image, the container name, pull policy `Always` and no resources field;
for `isInit = false` a container entry with the primary derived image,
the container name, pull policy `Always` and resource
requests/limits. -/
theorem c4_container_vs_init_entry (now : String) (s : Preset) (w : Workload)
    (cpu mem : LimitOption) (names : List String) :
    (w.isInit = true →
      (buildPatch now s w cpu mem
        (ImageNames.Primary (ImageNames.Derive names s.registry))).containers = [] ∧
      (buildPatch now s w cpu mem
        (ImageNames.Primary (ImageNames.Derive names s.registry))).initContainers =
        [{ image := ImageNames.Primary (ImageNames.Derive names s.registry)
           name := w.container, imagePullPolicy := "Always" }]) ∧
    (w.isInit = false →
      (buildPatch now s w cpu mem
        (ImageNames.Primary (ImageNames.Derive names s.registry))).initContainers = [] ∧
      ∃ res,
        (buildPatch now s w cpu mem
          (ImageNames.Primary (ImageNames.Derive names s.registry))).containers =
          [{ image := ImageNames.Primary (ImageNames.Derive names s.registry)
             name := w.container, imagePullPolicy := "Always", resources := res }]) := by
  constructor
  · intro h
    unfold buildPatch
    rw [h]
    simp
  · intro h
    refine ⟨?_, ?_⟩
    · unfold buildPatch
      rw [h]
      simp
    · exact ⟨_, buildPatch_containers_noninit now s w cpu mem _ h⟩

/-- C4 witness: the init and non-init variants of the sample workload
with the primary derived tag `reg1/svc:prod`. -/
theorem c4_container_vs_init_entry_witness :
    wInitEx.isInit = true ∧
    (buildPatch "T0" presetEx wInitEx ⟨0, 0⟩ ⟨0, 0⟩
      (ImageNames.Primary (ImageNames.Derive ["svc:prod"] presetEx.registry))).containers
        = [] ∧
    (buildPatch "T0" presetEx wInitEx ⟨0, 0⟩ ⟨0, 0⟩
      (ImageNames.Primary (ImageNames.Derive ["svc:prod"] presetEx.registry))).initContainers
        = [{ image := "reg1/svc:prod", name := "main", imagePullPolicy := "Always" }] ∧
    wEx.isInit = false ∧
    (buildPatch "T0" presetEx wEx ⟨0, 0⟩ ⟨0, 0⟩
      (ImageNames.Primary (ImageNames.Derive ["svc:prod"] presetEx.registry))).initContainers
        = [] :=
  ⟨rfl,
   ((c4_container_vs_init_entry "T0" presetEx wInitEx ⟨0, 0⟩ ⟨0, 0⟩ ["svc:prod"]).1 rfl).1,
   ((c4_container_vs_init_entry "T0" presetEx wInitEx ⟨0, 0⟩ ⟨0, 0⟩ ["svc:prod"]).1 rfl).2.trans
     (by decide),
   rfl,
   ((c4_container_vs_init_entry "T0" presetEx wEx ⟨0, 0⟩ ⟨0, 0⟩ ["svc:prod"]).2 rfl).1⟩

/-! ### Loop invariants of the tag/push stage -/

/-- The `usedImageNames` accumulator only grows across the tag/push
loop. -/
theorem pushImages_used_append (env : ExecEnv) (primary dcDir : String) :
    ∀ (ns used : List String),
      ∃ t, (pushImages env primary dcDir ns used).2.1 = used ++ t
  | [], used => ⟨[], by simp [pushImages]⟩
  | n :: ns, used => by
    cases htag : env.execDockerTag primary n with
    | error msg => exact ⟨[], by simp [pushImages, htag]⟩
    | ok u =>
      cases hpush : env.execDockerPush n dcDir with
      | error msg => exact ⟨[n], by simp [pushImages, htag, hpush]⟩
      | ok v =>
        obtain ⟨t, ht⟩ := pushImages_used_append env primary dcDir ns (used ++ [n])
        exact ⟨n :: t, by simp [pushImages, htag, hpush, ht]⟩

/-- Every event of the tag/push loop is a docker tag or a docker
push. -/
theorem pushImages_events_shape (env : ExecEnv) (primary dcDir : String) :
    ∀ (ns used : List String) (e : Event),
      e ∈ (pushImages env primary dcDir ns used).1 →
      (∃ a b, e = Event.dockerTag a b) ∨ (∃ n, e = Event.dockerPush n)
  | [], used, e => by simp [pushImages]
  | n :: ns, used, e => by
    cases htag : env.execDockerTag primary n with
    | error msg =>
      simp only [pushImages, htag]
      intro hmem
      simp at hmem
      exact Or.inl ⟨primary, n, hmem⟩
    | ok u =>
      cases hpush : env.execDockerPush n dcDir with
      | error msg =>
        simp only [pushImages, htag, hpush]
        intro hmem
        rcases List.mem_cons.mp hmem with h | hmem2
        · exact Or.inl ⟨primary, n, h⟩
        · exact Or.inr ⟨n, by simpa using hmem2⟩
      | ok v =>
        simp only [pushImages, htag, hpush]
        intro hmem
        rcases List.mem_cons.mp hmem with h | hmem2
        · exact Or.inl ⟨primary, n, h⟩
        · rcases List.mem_cons.mp hmem2 with h | hmem3
          · exact Or.inr ⟨n, h⟩
          · exact pushImages_events_shape env primary dcDir ns (used ++ [n]) e hmem3

/-- A derived tag is recorded in the accumulator no later than the
attempt to push it: a push event implies membership in the final
accumulator. -/
theorem pushImages_push_mem (env : ExecEnv) (primary dcDir : String) :
    ∀ (ns used : List String) (n : String),
      Event.dockerPush n ∈ (pushImages env primary dcDir ns used).1 →
      n ∈ (pushImages env primary dcDir ns used).2.1
  | [], used, n => by simp [pushImages]
  | m :: ns, used, n => by
    cases htag : env.execDockerTag primary m with
    | error msg =>
      simp only [pushImages, htag]
      intro hmem
      simp at hmem
    | ok u =>
      cases hpush : env.execDockerPush m dcDir with
      | error msg =>
        simp only [pushImages, htag, hpush]
        intro hmem
        simp at hmem
        subst hmem
        simp
      | ok v =>
        simp only [pushImages, htag, hpush]
        intro hmem
        rcases List.mem_cons.mp hmem with h | hmem2
        · exact absurd h (by simp)
        · rcases List.mem_cons.mp hmem2 with h | h
          · have hn : n = m := by simpa using h
            subst hn
            obtain ⟨t, ht⟩ := pushImages_used_append env primary dcDir ns (used ++ [n])
            rw [ht]
            simp
          · exact pushImages_push_mem env primary dcDir ns (used ++ [m]) n h

/-- Every derived tag whose docker-tag step was executed and succeeded
is recorded in the final accumulator. -/
theorem pushImages_tag_ok_mem (env : ExecEnv) (primary dcDir : String) :
    ∀ (ns used : List String) (a n : String),
      Event.dockerTag a n ∈ (pushImages env primary dcDir ns used).1 →
      env.execDockerTag a n = .ok () →
      n ∈ (pushImages env primary dcDir ns used).2.1
  | [], used, a, n => by simp [pushImages]
  | m :: ns, used, a, n => by
    cases htag : env.execDockerTag primary m with
    | error msg =>
      simp only [pushImages, htag]
      intro hmem hok
      simp at hmem
      obtain ⟨ha, hn⟩ := hmem
      subst ha
      subst hn
      rw [htag] at hok
      simp at hok
    | ok u =>
      cases hpush : env.execDockerPush m dcDir with
      | error msg =>
        simp only [pushImages, htag, hpush]
        intro hmem hok
        simp at hmem
        obtain ⟨ha, hn⟩ := hmem
        subst hn
        simp
      | ok v =>
        simp only [pushImages, htag, hpush]
        intro hmem hok
        rcases List.mem_cons.mp hmem with h | hmem2
        · have hn : n = m := by
            have := h
            simp at this
            exact this.2
          subst hn
          obtain ⟨t, ht⟩ := pushImages_used_append env primary dcDir ns (used ++ [n])
          rw [ht]
          simp
        · rcases List.mem_cons.mp hmem2 with h | h
          · exact absurd h (by simp)
          · exact pushImages_tag_ok_mem env primary dcDir ns (used ++ [m]) a n h hok

/-! ### Structure of the per-workload stage -/

/-- Every event of the deploy step is the kubeconfig write or the
kubectl patch invocation (with the namespace passed both as namespace
and as resource name, per line 196). -/
theorem deployStep_events (env : ExecEnv) (cpu mem : LimitOption) (s : Preset)
    (w : Workload) (fins : List String) (e : Event) :
    e ∈ (deployStep env cpu mem s w fins).1 →
    e = Event.writeKubeconfig w.cluster ∨
    ∃ k b, e = Event.kubectlPatch k w.namespace_ w.namespace_ w.type b := by
  unfold deployStep
  cases hk : env.writeKubeconfig s.kubeconfig with
  | error msg =>
    intro h
    simp at h
    exact Or.inl h
  | ok fk =>
    intro h
    simp at h
    rcases h with h1 | h2
    · exact Or.inl h1
    · exact Or.inr ⟨fk, _, h2⟩

/-- `runWorkload` when the preset load fails. -/
theorem runWorkload_presetErr (env : ExecEnv) (names : List String)
    (cpu mem : LimitOption) (sd : Bool) (w : Workload) (used : List String)
    (msg : String) (hlp : env.loadPreset w.cluster = .error msg) :
    runWorkload env names cpu mem sd w used =
      ([Event.loadPreset w.cluster], used, some msg) := by
  unfold runWorkload
  rw [hlp]

/-- `runWorkload` when the dockerconfig write fails. -/
theorem runWorkload_dcErr (env : ExecEnv) (names : List String)
    (cpu mem : LimitOption) (sd : Bool) (w : Workload) (used : List String)
    (s : Preset) (msg : String) (hlp : env.loadPreset w.cluster = .ok s)
    (hdc : env.writeDockerconfig s.dockerconfig = .error msg) :
    runWorkload env names cpu mem sd w used =
      ([Event.loadPreset w.cluster, Event.writeDockerconfig w.cluster], used, some msg) := by
  unfold runWorkload
  rw [hlp]
  dsimp only
  rw [hdc]

/-- `runWorkload` when preset load and dockerconfig write succeed. -/
theorem runWorkload_ok (env : ExecEnv) (names : List String)
    (cpu mem : LimitOption) (sd : Bool) (w : Workload) (used : List String)
    (s : Preset) (dcDir dcFile : String) (hlp : env.loadPreset w.cluster = .ok s)
    (hdc : env.writeDockerconfig s.dockerconfig = .ok (dcDir, dcFile)) :
    runWorkload env names cpu mem sd w used =
      (let r := pushImages env (ImageNames.Primary names) dcDir
        (ImageNames.Derive names s.registry) used
       let evs0 := Event.loadPreset w.cluster :: Event.writeDockerconfig w.cluster :: r.1
       match r.2.2 with
       | some msg => (evs0, r.2.1, some msg)
       | none =>
         if sd then (evs0, r.2.1, none)
         else
           let d := deployStep env cpu mem s w (ImageNames.Derive names s.registry)
           (evs0 ++ d.1, r.2.1, d.2)) := by
  unfold runWorkload
  rw [hlp]
  dsimp only
  rw [hdc]

/-- Combined per-workload invariants: the accumulator only grows, every
pushed tag is recorded, and every successfully tagged name is
recorded. -/
theorem runWorkload_spec (env : ExecEnv) (names : List String) (cpu mem : LimitOption)
    (sd : Bool) (w : Workload) (used : List String) :
    (∃ t, (runWorkload env names cpu mem sd w used).2.1 = used ++ t) ∧
    (∀ n, Event.dockerPush n ∈ (runWorkload env names cpu mem sd w used).1 →
        n ∈ (runWorkload env names cpu mem sd w used).2.1) ∧
    (∀ a n, Event.dockerTag a n ∈ (runWorkload env names cpu mem sd w used).1 →
        env.execDockerTag a n = .ok () →
        n ∈ (runWorkload env names cpu mem sd w used).2.1) := by
  cases hlp : env.loadPreset w.cluster with
  | error msg =>
    rw [runWorkload_presetErr env names cpu mem sd w used msg hlp]
    refine ⟨⟨[], by simp⟩, ?_, ?_⟩
    · intro n hmem
      simp at hmem
    · intro a n hmem hok
      simp at hmem
  | ok s =>
    cases hdc : env.writeDockerconfig s.dockerconfig with
    | error msg =>
      rw [runWorkload_dcErr env names cpu mem sd w used s msg hlp hdc]
      refine ⟨⟨[], by simp⟩, ?_, ?_⟩
      · intro n hmem
        simp at hmem
      · intro a n hmem hok
        simp at hmem
    | ok pair =>
      obtain ⟨dcDir, dcFile⟩ := pair
      rw [runWorkload_ok env names cpu mem sd w used s dcDir dcFile hlp hdc]
      cases hpe : (pushImages env (ImageNames.Primary names) dcDir
          (ImageNames.Derive names s.registry) used).2.2 with
      | some msg =>
        simp only [hpe]
        refine ⟨pushImages_used_append env (ImageNames.Primary names) dcDir _ used, ?_, ?_⟩
        · intro n hmem
          simp at hmem
          exact pushImages_push_mem env (ImageNames.Primary names) dcDir _ used n hmem
        · intro a n hmem hok
          simp at hmem
          exact pushImages_tag_ok_mem env (ImageNames.Primary names) dcDir _ used a n hmem hok
      | none =>
        simp only [hpe]
        cases sd with
        | true =>
          simp only [if_true]
          refine ⟨pushImages_used_append env (ImageNames.Primary names) dcDir _ used, ?_, ?_⟩
          · intro n hmem
            simp at hmem
            exact pushImages_push_mem env (ImageNames.Primary names) dcDir _ used n hmem
          · intro a n hmem hok
            simp at hmem
            exact pushImages_tag_ok_mem env (ImageNames.Primary names) dcDir _ used a n hmem hok
        | false =>
          simp only [Bool.false_eq_true, if_false]
          refine ⟨pushImages_used_append env (ImageNames.Primary names) dcDir _ used, ?_, ?_⟩
          · intro n hmem
            simp at hmem
            rcases hmem with hmem | hmem
            · exact pushImages_push_mem env (ImageNames.Primary names) dcDir _ used n hmem
            · rcases deployStep_events env cpu mem s w _ _ hmem with h | ⟨k, b, h⟩ <;> simp at h
          · intro a n hmem hok
            simp at hmem
            rcases hmem with hmem | hmem
            · exact pushImages_tag_ok_mem env (ImageNames.Primary names) dcDir _ used a n hmem hok
            · rcases deployStep_events env cpu mem s w _ _ hmem with h | ⟨k, b, h⟩ <;> simp at h

/-! ### Loop-level invariants and the top-level run -/

/-- A failing workload aborts the whole remaining workload list: the
trace and the accumulator are exactly those of the failing workload,
independent of the remaining workloads. -/
theorem runWorkloads_cons_err (env : ExecEnv) (names : List String)
    (cpu mem : LimitOption) (sd : Bool) (w : Workload) (ws : List Workload)
    (used : List String) (msg : String)
    (h : (runWorkload env names cpu mem sd w used).2.2 = some msg) :
    runWorkloads env names cpu mem sd (w :: ws) used =
      ((runWorkload env names cpu mem sd w used).1,
       (runWorkload env names cpu mem sd w used).2.1, some msg) := by
  simp [runWorkloads, h]

/-- A succeeding workload is followed by the rest of the list on the
updated accumulator. -/
theorem runWorkloads_cons_ok (env : ExecEnv) (names : List String)
    (cpu mem : LimitOption) (sd : Bool) (w : Workload) (ws : List Workload)
    (used : List String)
    (h : (runWorkload env names cpu mem sd w used).2.2 = none) :
    runWorkloads env names cpu mem sd (w :: ws) used =
      ((runWorkload env names cpu mem sd w used).1 ++
        (runWorkloads env names cpu mem sd ws
          (runWorkload env names cpu mem sd w used).2.1).1,
       (runWorkloads env names cpu mem sd ws
          (runWorkload env names cpu mem sd w used).2.1).2.1,
       (runWorkloads env names cpu mem sd ws
          (runWorkload env names cpu mem sd w used).2.1).2.2) := by
  simp [runWorkloads, h]

/-- The accumulator only grows across the whole workload loop. -/
theorem runWorkloads_used_append (env : ExecEnv) (names : List String)
    (cpu mem : LimitOption) (sd : Bool) :
    ∀ (ws : List Workload) (used : List String),
      ∃ t, (runWorkloads env names cpu mem sd ws used).2.1 = used ++ t
  | [], used => ⟨[], by simp [runWorkloads]⟩
  | w :: ws, used => by
    obtain ⟨t1, ht1⟩ := (runWorkload_spec env names cpu mem sd w used).1
    cases hpe : (runWorkload env names cpu mem sd w used).2.2 with
    | some msg =>
      rw [runWorkloads_cons_err env names cpu mem sd w ws used msg hpe]
      exact ⟨t1, ht1⟩
    | none =>
      obtain ⟨t2, ht2⟩ := runWorkloads_used_append env names cpu mem sd ws
        ((runWorkload env names cpu mem sd w used).2.1)
      rw [runWorkloads_cons_ok env names cpu mem sd w ws used hpe]
      refine ⟨t1 ++ t2, ?_⟩
      rw [ht2, ht1, List.append_assoc]

/-- Every pushed tag is recorded in the final accumulator. -/
theorem runWorkloads_push_mem (env : ExecEnv) (names : List String)
    (cpu mem : LimitOption) (sd : Bool) :
    ∀ (ws : List Workload) (used : List String) (n : String),
      Event.dockerPush n ∈ (runWorkloads env names cpu mem sd ws used).1 →
      n ∈ (runWorkloads env names cpu mem sd ws used).2.1
  | [], used, n => by simp [runWorkloads]
  | w :: ws, used, n => by
    cases hpe : (runWorkload env names cpu mem sd w used).2.2 with
    | some msg =>
      rw [runWorkloads_cons_err env names cpu mem sd w ws used msg hpe]
      intro hmem
      exact (runWorkload_spec env names cpu mem sd w used).2.1 n hmem
    | none =>
      rw [runWorkloads_cons_ok env names cpu mem sd w ws used hpe]
      intro hmem
      rcases List.mem_append.mp hmem with h | h
      · have hn := (runWorkload_spec env names cpu mem sd w used).2.1 n h
        obtain ⟨t2, ht2⟩ := runWorkloads_used_append env names cpu mem sd ws
          ((runWorkload env names cpu mem sd w used).2.1)
        rw [ht2]
        exact List.mem_append_left _ hn
      · exact runWorkloads_push_mem env names cpu mem sd ws _ n h

/-- Every successfully tagged name is recorded in the final
accumulator. -/
theorem runWorkloads_tag_ok_mem (env : ExecEnv) (names : List String)
    (cpu mem : LimitOption) (sd : Bool) :
    ∀ (ws : List Workload) (used : List String) (a n : String),
      Event.dockerTag a n ∈ (runWorkloads env names cpu mem sd ws used).1 →
      env.execDockerTag a n = .ok () →
      n ∈ (runWorkloads env names cpu mem sd ws used).2.1
  | [], used, a, n => by simp [runWorkloads]
  | w :: ws, used, a, n => by
    cases hpe : (runWorkload env names cpu mem sd w used).2.2 with
    | some msg =>
      rw [runWorkloads_cons_err env names cpu mem sd w ws used msg hpe]
      intro hmem hok
      exact (runWorkload_spec env names cpu mem sd w used).2.2 a n hmem hok
    | none =>
      rw [runWorkloads_cons_ok env names cpu mem sd w ws used hpe]
      intro hmem hok
      rcases List.mem_append.mp hmem with h | h
      · have hn := (runWorkload_spec env names cpu mem sd w used).2.2 a n h hok
        obtain ⟨t2, ht2⟩ := runWorkloads_used_append env names cpu mem sd ws
          ((runWorkload env names cpu mem sd w used).2.1)
        rw [ht2]
        exact List.mem_append_left _ hn
      · exact runWorkloads_tag_ok_mem env names cpu mem sd ws _ a n h hok

/-- Once image/env resolution and the pre-workload stages succeed, the
whole run is the pre-stage events, the workload-loop events, and the
cleanup removals of exactly the accumulated image names; the exit code
is 1 iff the loop errored. -/
theorem deployerMain_run (env : ExecEnv) (image envName fileBuild filePackage : String)
    (h1 : resolveImageEnv env.optImage env.optEnv env.jobName = some (image, envName))
    (h2 : env.loadManifest env.optManifest = .ok ())
    (h3 : env.generateFiles envName = .ok (fileBuild, filePackage))
    (h4 : env.execBuild fileBuild = .ok ())
    (h5 : env.execDockerBuild filePackage
      (ImageNames.Primary (computeImageNames image envName env.buildNumber)) = .ok ()) :
    deployerMain env =
      { trace := preEvents env envName fileBuild filePackage
            (computeImageNames image envName env.buildNumber)
          ++ (runWorkloads env (computeImageNames image envName env.buildNumber)
              env.optCPU env.optMEM env.optSkipDeploy env.optWorkloads
              [ImageNames.Primary (computeImageNames image envName env.buildNumber)]).1
          ++ (runWorkloads env (computeImageNames image envName env.buildNumber)
              env.optCPU env.optMEM env.optSkipDeploy env.optWorkloads
              [ImageNames.Primary (computeImageNames image envName env.buildNumber)]).2.1.map
              Event.dockerRemoveImage
        exitCode :=
          if (runWorkloads env (computeImageNames image envName env.buildNumber)
              env.optCPU env.optMEM env.optSkipDeploy env.optWorkloads
              [ImageNames.Primary (computeImageNames image envName env.buildNumber)]).2.2.isSome
          then 1 else 0 } := by
  unfold deployerMain
  rw [h1]
  dsimp only
  rw [h2]
  dsimp only
  rw [h3]
  dsimp only
  rw [h4]
  dsimp only
  rw [h5]

/-! ### Fail-fast and cleanup claims (C6, C7) -/

/-- The preset of the second sample cluster. -/
def presetEx2 : Preset :=
  { presetEx with registry := "reg2", dockerconfig := "DC2", kubeconfig := "KC2" }

/-- A second sample workload, on cluster `c2`. -/
def w2Ex : Workload :=
  { wEx with cluster := "c2", name := "other" }

/-- A third sample workload, on cluster `c3`. -/
def w3Ex : Workload :=
  { wEx with cluster := "c3", name := "third" }

/-- Three workloads; only the second registry's push fails, so the
first error occurs at the second workload and the third is never
reached. -/
def c6Env : ExecEnv :=
  { c1Env with
    optWorkloads := [wEx, w2Ex, w3Ex]
    loadPreset := fun c =>
      if c == "c1" then .ok presetEx
      else if c == "c2" then .ok presetEx2
      else .error "unknown cluster"
    execDockerPush := fun n _ =>
      if n == "reg2/svc:prod" then .error "pushfail" else .ok () }

/-- Two workloads on two clusters; only the second registry's push
fails. -/
def c7Env : ExecEnv :=
  { c1Env with
    optWorkloads := [wEx, w2Ex]
    loadPreset := fun c =>
      if c == "c1" then .ok presetEx
      else if c == "c2" then .ok presetEx2
      else .error "unknown cluster"
    execDockerPush := fun n _ =>
      if n == "reg2/svc:prod" then .error "pushfail" else .ok () }

/-- A failing workload at an arbitrary position of the list aborts the
whole remainder: after a succeeding prefix `ws1`, the trace is the
prefix's events plus the failing workload's own events, the accumulator
is the failing workload's accumulator, and the remaining workloads
`ws2` contribute nothing. -/
theorem runWorkloads_mid_err (env : ExecEnv) (names : List String)
    (cpu mem : LimitOption) (sd : Bool) :
    ∀ (ws1 : List Workload) (w : Workload) (ws2 : List Workload)
      (used : List String) (msg : String),
      (runWorkloads env names cpu mem sd ws1 used).2.2 = none →
      (runWorkload env names cpu mem sd w
        ((runWorkloads env names cpu mem sd ws1 used).2.1)).2.2 = some msg →
      runWorkloads env names cpu mem sd (ws1 ++ w :: ws2) used =
        ((runWorkloads env names cpu mem sd ws1 used).1 ++
          (runWorkload env names cpu mem sd w
            ((runWorkloads env names cpu mem sd ws1 used).2.1)).1,
         (runWorkload env names cpu mem sd w
            ((runWorkloads env names cpu mem sd ws1 used).2.1)).2.1,
         some msg)
  | [], w, ws2, used, msg => by
    intro hok hfail
    have hf : (runWorkload env names cpu mem sd w used).2.2 = some msg := hfail
    rw [List.nil_append,
      runWorkloads_cons_err env names cpu mem sd w ws2 used msg hf]
    rfl
  | w1 :: ws1, w, ws2, used, msg => by
    intro hok hfail
    cases hpe : (runWorkload env names cpu mem sd w1 used).2.2 with
    | some m =>
      rw [runWorkloads_cons_err env names cpu mem sd w1 ws1 used m hpe] at hok
      simp at hok
    | none =>
      have hok2 : (runWorkloads env names cpu mem sd ws1
          ((runWorkload env names cpu mem sd w1 used).2.1)).2.2 = none := by
        rw [runWorkloads_cons_ok env names cpu mem sd w1 ws1 used hpe] at hok
        exact hok
      have hfail2 : (runWorkload env names cpu mem sd w
          ((runWorkloads env names cpu mem sd ws1
            ((runWorkload env names cpu mem sd w1 used).2.1)).2.1)).2.2 = some msg := by
        rw [runWorkloads_cons_ok env names cpu mem sd w1 ws1 used hpe] at hfail
        exact hfail
      have IH := runWorkloads_mid_err env names cpu mem sd ws1 w ws2
        ((runWorkload env names cpu mem sd w1 used).2.1) msg hok2 hfail2
      rw [List.cons_append,
        runWorkloads_cons_ok env names cpu mem sd w1 (ws1 ++ w :: ws2) used hpe, IH,
        runWorkloads_cons_ok env names cpu mem sd w1 ws1 used hpe]
      simp [List.append_assoc]

/-- C6: a failure inside the workload loop — at any position of the
input list, after any succeeding prefix — aborts all subsequent stages
for the entire remaining pipeline: the run's trace consists of the
pre-stage events, the succeeding prefix's events, the failing
workload's own events, and the cleanup image removals only — no event
of any later workload — and the exit code is 1. -/
theorem c6_fail_fast_aborts_rest (env : ExecEnv)
    (image envName fileBuild filePackage msg : String)
    (ws1 : List Workload) (w : Workload) (ws2 : List Workload)
    (h1 : resolveImageEnv env.optImage env.optEnv env.jobName = some (image, envName))
    (h2 : env.loadManifest env.optManifest = .ok ())
    (h3 : env.generateFiles envName = .ok (fileBuild, filePackage))
    (h4 : env.execBuild fileBuild = .ok ())
    (h5 : env.execDockerBuild filePackage
      (ImageNames.Primary (computeImageNames image envName env.buildNumber)) = .ok ())
    (hws : env.optWorkloads = ws1 ++ w :: ws2)
    (hok : (runWorkloads env (computeImageNames image envName env.buildNumber)
        env.optCPU env.optMEM env.optSkipDeploy ws1
        [ImageNames.Primary (computeImageNames image envName env.buildNumber)]).2.2 =
        none)
    (hfail : (runWorkload env (computeImageNames image envName env.buildNumber)
        env.optCPU env.optMEM env.optSkipDeploy w
        ((runWorkloads env (computeImageNames image envName env.buildNumber)
          env.optCPU env.optMEM env.optSkipDeploy ws1
          [ImageNames.Primary (computeImageNames image envName env.buildNumber)]).2.1)).2.2 =
        some msg) :
    deployerMain env =
      { trace := preEvents env envName fileBuild filePackage
            (computeImageNames image envName env.buildNumber)
          ++ ((runWorkloads env (computeImageNames image envName env.buildNumber)
              env.optCPU env.optMEM env.optSkipDeploy ws1
              [ImageNames.Primary (computeImageNames image envName env.buildNumber)]).1
            ++ (runWorkload env (computeImageNames image envName env.buildNumber)
                env.optCPU env.optMEM env.optSkipDeploy w
                ((runWorkloads env (computeImageNames image envName env.buildNumber)
                  env.optCPU env.optMEM env.optSkipDeploy ws1
                  [ImageNames.Primary (computeImageNames image envName env.buildNumber)]).2.1)).1)
          ++ (runWorkload env (computeImageNames image envName env.buildNumber)
              env.optCPU env.optMEM env.optSkipDeploy w
              ((runWorkloads env (computeImageNames image envName env.buildNumber)
                env.optCPU env.optMEM env.optSkipDeploy ws1
                [ImageNames.Primary (computeImageNames image envName env.buildNumber)]).2.1)).2.1.map
              Event.dockerRemoveImage
        exitCode := 1 } := by
  rw [deployerMain_run env image envName fileBuild filePackage h1 h2 h3 h4 h5, hws,
    runWorkloads_mid_err env (computeImageNames image envName env.buildNumber)
      env.optCPU env.optMEM env.optSkipDeploy ws1 w ws2
      [ImageNames.Primary (computeImageNames image envName env.buildNumber)] msg hok hfail]
  rfl

set_option maxRecDepth 8192 in
/-- C6 witness: of three workloads, the second one's push fails after
the first succeeded in full; the trace ends with the failing workload's
events plus cleanup of the three recorded tags, the third workload's
cluster is never touched, and the exit code is 1. -/
theorem c6_fail_fast_aborts_rest_witness :
    (deployerMain c6Env).exitCode = 1 ∧
    (deployerMain c6Env).trace =
      preEvents c6Env "prod" "build.sh" "Dockerfile" ["svc:prod"]
        ++ ((runWorkloads c6Env ["svc:prod"] ⟨0, 0⟩ ⟨0, 0⟩ false [wEx] ["svc:prod"]).1
          ++ [Event.loadPreset "c2", Event.writeDockerconfig "c2",
              Event.dockerTag "svc:prod" "reg2/svc:prod",
              Event.dockerPush "reg2/svc:prod"])
        ++ [Event.dockerRemoveImage "svc:prod", Event.dockerRemoveImage "reg1/svc:prod",
            Event.dockerRemoveImage "reg2/svc:prod"] ∧
    Event.loadPreset "c3" ∉ (deployerMain c6Env).trace := by
  have h := c6_fail_fast_aborts_rest c6Env "svc" "prod" "build.sh" "Dockerfile" "pushfail"
    [wEx] w2Ex [w3Ex] rfl rfl rfl rfl rfl rfl (by decide) (by decide)
  refine ⟨?_, ?_, ?_⟩
  · rw [h]
  · rw [h]
    decide
  · rw [h]
    decide

/-- C7: once packaging succeeded, the accumulator contains the primary
tag, every pushed derived tag (a derived tag is recorded no later than
its push attempt) and every successfully tagged derived name, and the
deferred cleanup removes exactly the accumulated tags on every exit
path, with exit code 1 iff the loop errored. -/
theorem c7_used_image_tags (env : ExecEnv)
    (image envName fileBuild filePackage : String)
    (wevs : List Event) (usedF : List String) (werr : Option String)
    (h1 : resolveImageEnv env.optImage env.optEnv env.jobName = some (image, envName))
    (h2 : env.loadManifest env.optManifest = .ok ())
    (h3 : env.generateFiles envName = .ok (fileBuild, filePackage))
    (h4 : env.execBuild fileBuild = .ok ())
    (h5 : env.execDockerBuild filePackage
      (ImageNames.Primary (computeImageNames image envName env.buildNumber)) = .ok ())
    (hR : runWorkloads env (computeImageNames image envName env.buildNumber)
        env.optCPU env.optMEM env.optSkipDeploy env.optWorkloads
        [ImageNames.Primary (computeImageNames image envName env.buildNumber)] =
        (wevs, usedF, werr)) :
    ImageNames.Primary (computeImageNames image envName env.buildNumber) ∈ usedF ∧
    (∀ n, Event.dockerPush n ∈ wevs → n ∈ usedF) ∧
    (∀ a n, Event.dockerTag a n ∈ wevs → env.execDockerTag a n = .ok () → n ∈ usedF) ∧
    (deployerMain env).trace =
      preEvents env envName fileBuild filePackage
        (computeImageNames image envName env.buildNumber)
        ++ wevs ++ usedF.map Event.dockerRemoveImage ∧
    (deployerMain env).exitCode = if werr.isSome then 1 else 0 := by
  obtain ⟨t, ht⟩ := runWorkloads_used_append env
    (computeImageNames image envName env.buildNumber) env.optCPU env.optMEM
    env.optSkipDeploy env.optWorkloads
    [ImageNames.Primary (computeImageNames image envName env.buildNumber)]
  rw [hR] at ht
  refine ⟨?_, ?_, ?_, ?_, ?_⟩
  · rw [show usedF = (wevs, usedF, werr).2.1 from rfl, ht]
    simp
  · intro n hmem
    have h := runWorkloads_push_mem env
      (computeImageNames image envName env.buildNumber) env.optCPU env.optMEM
      env.optSkipDeploy env.optWorkloads
      [ImageNames.Primary (computeImageNames image envName env.buildNumber)] n
      (by rw [hR]; exact hmem)
    rw [hR] at h
    exact h
  · intro a n hmem hok
    have h := runWorkloads_tag_ok_mem env
      (computeImageNames image envName env.buildNumber) env.optCPU env.optMEM
      env.optSkipDeploy env.optWorkloads
      [ImageNames.Primary (computeImageNames image envName env.buildNumber)] a n
      (by rw [hR]; exact hmem) hok
    rw [hR] at h
    exact h
  · rw [deployerMain_run env image envName fileBuild filePackage h1 h2 h3 h4 h5]
    simp [hR]
  · rw [deployerMain_run env image envName fileBuild filePackage h1 h2 h3 h4 h5]
    simp [hR]

/-- C7 witness: push failure on the second workload; the first
workload's pushed tag is still in the accumulator, its removal is in
the trace, and the process exits 1. -/
theorem c7_used_image_tags_witness :
    "reg1/svc:prod" ∈
      (runWorkloads c7Env ["svc:prod"] ⟨0, 0⟩ ⟨0, 0⟩ false [wEx, w2Ex] ["svc:prod"]).2.1 ∧
    Event.dockerRemoveImage "reg1/svc:prod" ∈ (deployerMain c7Env).trace ∧
    (deployerMain c7Env).exitCode = 1 := by
  have h := c7_used_image_tags c7Env "svc" "prod" "build.sh" "Dockerfile"
    (runWorkloads c7Env (computeImageNames "svc" "prod" c7Env.buildNumber)
      c7Env.optCPU c7Env.optMEM c7Env.optSkipDeploy c7Env.optWorkloads
      [ImageNames.Primary (computeImageNames "svc" "prod" c7Env.buildNumber)]).1
    (runWorkloads c7Env (computeImageNames "svc" "prod" c7Env.buildNumber)
      c7Env.optCPU c7Env.optMEM c7Env.optSkipDeploy c7Env.optWorkloads
      [ImageNames.Primary (computeImageNames "svc" "prod" c7Env.buildNumber)]).2.1
    (runWorkloads c7Env (computeImageNames "svc" "prod" c7Env.buildNumber)
      c7Env.optCPU c7Env.optMEM c7Env.optSkipDeploy c7Env.optWorkloads
      [ImageNames.Primary (computeImageNames "svc" "prod" c7Env.buildNumber)]).2.2
    rfl rfl rfl rfl rfl rfl
  refine ⟨?_, ?_, ?_⟩
  · exact h.2.1 "reg1/svc:prod" (by decide)
  · rw [h.2.2.2.1]
    decide
  · exact h.2.2.2.2.trans (by decide)

/-! ### Skip-deploy and preset-loading claims (C8, C9) -/

/-- The tag/push loop emits no event satisfying a predicate that
rejects tag and push events. -/
theorem pushImages_filter_nil (env : ExecEnv) (primary dcDir : String)
    (p : Event → Bool)
    (htag : ∀ a b, p (Event.dockerTag a b) = false)
    (hpush : ∀ n, p (Event.dockerPush n) = false)
    (ns used : List String) :
    (pushImages env primary dcDir ns used).1.filter p = [] := by
  rw [List.filter_eq_nil_iff]
  intro e he
  rcases pushImages_events_shape env primary dcDir ns used e he with ⟨a, b, rfl⟩ | ⟨n, rfl⟩
  · simp [htag]
  · simp [hpush]

/-- The deploy step emits no event satisfying a predicate that rejects
kubeconfig-write and kubectl-patch events. -/
theorem deployStep_filter_nil (env : ExecEnv) (cpu mem : LimitOption) (s : Preset)
    (w : Workload) (fins : List String) (p : Event → Bool)
    (hwk : p (Event.writeKubeconfig w.cluster) = false)
    (hkp : ∀ k b, p (Event.kubectlPatch k w.namespace_ w.namespace_ w.type b) = false) :
    (deployStep env cpu mem s w fins).1.filter p = [] := by
  rw [List.filter_eq_nil_iff]
  intro e he
  rcases deployStep_events env cpu mem s w fins e he with rfl | ⟨k, b, rfl⟩
  · simp [hwk]
  · simp [hkp]

/-- Cleanup removals never contain a kubectl patch invocation. -/
theorem filter_patch_map_remove (l : List String) :
    (l.map Event.dockerRemoveImage).filter isPatchEvent = [] := by
  induction l with
  | nil => rfl
  | cons x xs ih => simp [isPatchEvent, ih]

/-- With `--skip-deploy`, one workload iteration emits no kubectl patch
invocation. -/
theorem runWorkload_skip_no_patch (env : ExecEnv) (names : List String)
    (cpu mem : LimitOption) (w : Workload) (used : List String) :
    (runWorkload env names cpu mem true w used).1.filter isPatchEvent = [] := by
  cases hlp : env.loadPreset w.cluster with
  | error msg =>
    rw [runWorkload_presetErr env names cpu mem true w used msg hlp]
    simp [isPatchEvent]
  | ok s =>
    cases hdc : env.writeDockerconfig s.dockerconfig with
    | error msg =>
      rw [runWorkload_dcErr env names cpu mem true w used s msg hlp hdc]
      simp [isPatchEvent]
    | ok pair =>
      obtain ⟨dcDir, dcFile⟩ := pair
      rw [runWorkload_ok env names cpu mem true w used s dcDir dcFile hlp hdc]
      cases hpe : (pushImages env (ImageNames.Primary names) dcDir
          (ImageNames.Derive names s.registry) used).2.2 with
      | some msg =>
        simp only [hpe]
        simp [isPatchEvent,
          pushImages_filter_nil env (ImageNames.Primary names) dcDir isPatchEvent
            (fun a b => rfl) (fun n => rfl) (ImageNames.Derive names s.registry) used]
      | none =>
        simp only [hpe]
        simp [isPatchEvent,
          pushImages_filter_nil env (ImageNames.Primary names) dcDir isPatchEvent
            (fun a b => rfl) (fun n => rfl) (ImageNames.Derive names s.registry) used]

/-- With `--skip-deploy`, the whole workload loop emits no kubectl
patch invocation. -/
theorem runWorkloads_skip_no_patch (env : ExecEnv) (names : List String)
    (cpu mem : LimitOption) :
    ∀ (ws : List Workload) (used : List String),
      (runWorkloads env names cpu mem true ws used).1.filter isPatchEvent = []
  | [], used => by simp [runWorkloads]
  | w :: ws, used => by
    cases hpe : (runWorkload env names cpu mem true w used).2.2 with
    | some msg =>
      rw [runWorkloads_cons_err env names cpu mem true w ws used msg hpe]
      exact runWorkload_skip_no_patch env names cpu mem w used
    | none =>
      rw [runWorkloads_cons_ok env names cpu mem true w ws used hpe]
      rw [List.filter_append, runWorkload_skip_no_patch env names cpu mem w used,
        runWorkloads_skip_no_patch env names cpu mem ws
          ((runWorkload env names cpu mem true w used).2.1)]
      rfl

/-- C8: with `--skip-deploy` set, the cluster-patch executor is never
invoked in the entire run (the trace of any run, successful or not,
contains no kubectl patch event), while the tag and push stages still
run in full for every workload whose preset and dockerconfig steps
succeed (the iteration's result is exactly the tag/push loop's
result). -/
theorem c8_skip_deploy_no_patch (env : ExecEnv) (h : env.optSkipDeploy = true) :
    (deployerMain env).trace.filter isPatchEvent = [] ∧
    (∀ (names : List String) (cpu mem : LimitOption) (w : Workload)
        (used : List String) (s : Preset) (dcDir dcFile : String),
      env.loadPreset w.cluster = .ok s →
      env.writeDockerconfig s.dockerconfig = .ok (dcDir, dcFile) →
      runWorkload env names cpu mem env.optSkipDeploy w used =
        (Event.loadPreset w.cluster :: Event.writeDockerconfig w.cluster ::
          (pushImages env (ImageNames.Primary names) dcDir
            (ImageNames.Derive names s.registry) used).1,
         (pushImages env (ImageNames.Primary names) dcDir
            (ImageNames.Derive names s.registry) used).2.1,
         (pushImages env (ImageNames.Primary names) dcDir
            (ImageNames.Derive names s.registry) used).2.2)) := by
  constructor
  · unfold deployerMain
    cases hr : resolveImageEnv env.optImage env.optEnv env.jobName with
    | none => rfl
    | some pr =>
      obtain ⟨image, envName⟩ := pr
      dsimp only
      cases hm : env.loadManifest env.optManifest with
      | error msg => simp [isPatchEvent]
      | ok u =>
        dsimp only
        cases hg : env.generateFiles envName with
        | error msg => simp [isPatchEvent]
        | ok pr2 =>
          obtain ⟨fileBuild, filePackage⟩ := pr2
          dsimp only
          cases hb : env.execBuild fileBuild with
          | error msg => simp [isPatchEvent]
          | ok u2 =>
            dsimp only
            cases hdb : env.execDockerBuild filePackage
                (ImageNames.Primary (computeImageNames image envName env.buildNumber)) with
            | error msg => simp [isPatchEvent]
            | ok u3 =>
              dsimp only
              rw [h]
              rw [List.filter_append, List.filter_append,
                runWorkloads_skip_no_patch env
                  (computeImageNames image envName env.buildNumber)
                  env.optCPU env.optMEM env.optWorkloads
                  [ImageNames.Primary (computeImageNames image envName env.buildNumber)],
                filter_patch_map_remove]
              simp [preEvents, isPatchEvent]
  · intro names cpu mem w used s dcDir dcFile hlp hdc
    rw [h]
    rw [runWorkload_ok env names cpu mem true w used s dcDir dcFile hlp hdc]
    cases hpe : (pushImages env (ImageNames.Primary names) dcDir
        (ImageNames.Derive names s.registry) used).2.2 with
    | some msg =>
      simp only [hpe]
    | none =>
      simp only [hpe]
      rfl

/-- Two workloads on two clusters, `--skip-deploy` set, everything
succeeding. -/
def c8Env : ExecEnv :=
  { c1Env with
    optSkipDeploy := true
    optWorkloads := [wEx, w2Ex]
    loadPreset := fun c =>
      if c == "c1" then .ok presetEx
      else if c == "c2" then .ok presetEx2
      else .error "unknown cluster" }

/-- C8 witness: a two-workload `--skip-deploy` run pushes the derived
tags of both workloads but issues zero patch calls. -/
theorem c8_skip_deploy_no_patch_witness :
    (deployerMain c8Env).trace.filter isPatchEvent = [] ∧
    runWorkload c8Env ["svc:prod"] ⟨0, 0⟩ ⟨0, 0⟩ true wEx ["svc:prod"] =
      ([Event.loadPreset "c1", Event.writeDockerconfig "c1",
        Event.dockerTag "svc:prod" "reg1/svc:prod", Event.dockerPush "reg1/svc:prod"],
       ["svc:prod", "reg1/svc:prod"], none) ∧
    Event.dockerPush "reg1/svc:prod" ∈ (deployerMain c8Env).trace ∧
    Event.dockerPush "reg2/svc:prod" ∈ (deployerMain c8Env).trace := by
  have h := c8_skip_deploy_no_patch c8Env rfl
  refine ⟨h.1, ?_, by decide, by decide⟩
  exact (h.2 ["svc:prod"] ⟨0, 0⟩ ⟨0, 0⟩ wEx ["svc:prod"] presetEx "dcdir"
    "dcdir/config.json" rfl rfl).trans (by decide)

/-- Two workloads naming the same cluster `c1`, everything
succeeding. -/
def c9Env : ExecEnv :=
  { c1Env with optWorkloads := [wEx, { wEx with name := "other" }] }

/-- C9 counterexample: two workloads name the same cluster `c1`, yet
the trace of a fully succeeding run contains two `LoadPreset`
invocations (the loop calls `LoadPreset` on every iteration, with no
caching), refuting "LoadPreset is invoked only once for that
cluster". -/
theorem c9_counterexample_loadPreset_twice :
    c9Env.optWorkloads.map Workload.cluster = ["c1", "c1"] ∧
    (deployerMain c9Env).trace.filter isLoadPresetEvent =
      [Event.loadPreset "c1", Event.loadPreset "c1"] ∧
    ((deployerMain c9Env).trace.filter isLoadPresetEvent).length ≠ 1 :=
  ⟨rfl, by decide, by decide⟩

/-- C9 (amended): the preset is loaded once per workload iteration —
every iteration of the workload loop invokes `LoadPreset` exactly once,
on that workload's cluster, with no caching across workloads. -/
theorem c9_amended_loadPreset_per_iteration (env : ExecEnv) (names : List String)
    (cpu mem : LimitOption) (sd : Bool) (w : Workload) (used : List String) :
    (runWorkload env names cpu mem sd w used).1.filter isLoadPresetEvent =
      [Event.loadPreset w.cluster] := by
  cases hlp : env.loadPreset w.cluster with
  | error msg =>
    rw [runWorkload_presetErr env names cpu mem sd w used msg hlp]
    simp [isLoadPresetEvent]
  | ok s =>
    cases hdc : env.writeDockerconfig s.dockerconfig with
    | error msg =>
      rw [runWorkload_dcErr env names cpu mem sd w used s msg hlp hdc]
      simp [isLoadPresetEvent]
    | ok pair =>
      obtain ⟨dcDir, dcFile⟩ := pair
      rw [runWorkload_ok env names cpu mem sd w used s dcDir dcFile hlp hdc]
      cases hpe : (pushImages env (ImageNames.Primary names) dcDir
          (ImageNames.Derive names s.registry) used).2.2 with
      | some msg =>
        simp only [hpe]
        simp [isLoadPresetEvent,
          pushImages_filter_nil env (ImageNames.Primary names) dcDir isLoadPresetEvent
            (fun a b => rfl) (fun n => rfl) (ImageNames.Derive names s.registry) used]
      | none =>
        simp only [hpe]
        cases sd with
        | true =>
          simp [isLoadPresetEvent,
            pushImages_filter_nil env (ImageNames.Primary names) dcDir isLoadPresetEvent
              (fun a b => rfl) (fun n => rfl) (ImageNames.Derive names s.registry) used]
        | false =>
          simp [isLoadPresetEvent, List.filter_append,
            pushImages_filter_nil env (ImageNames.Primary names) dcDir isLoadPresetEvent
              (fun a b => rfl) (fun n => rfl) (ImageNames.Derive names s.registry) used,
            deployStep_filter_nil env cpu mem s w (ImageNames.Derive names s.registry)
              isLoadPresetEvent rfl (fun k b => rfl)]
